import Mathlib

/-!
# Verification of the TTS training-job queue coordinator

A shallow embedding of `app/services/job_queue.py` (together with the data
model of `app/models/tts_training_job.py`, `app/models/tts_model.py`,
`app/models/tts_dataset.py` and the result types of
`app/services/runpod_service.py`).

Modelling conventions:

* Database rows are Lean structures; UUIDs are modelled as `Nat` identifiers
  and timestamps as `Nat` clock values, both supplied explicitly by the
  caller where the Python code calls `uuid4()` / `datetime.utcnow()`.
* Python floats that the service merely copies and truth-tests (loss values)
  are modelled as `Rat`; no float arithmetic occurs in the modelled code.
* Python truthiness on optional strings/numbers (`if x:`) is modelled
  explicitly: `None` and `""` are falsy for strings, `None` and `0` for
  numbers.
* The job table is a list in creation order (`created_at` ascending), so the
  SQL `ORDER BY created_at` of the poll loop is list order here.
* `submit_training_job`, `get_job_status` and `cancel_job` of
  `runpod_service.py` catch every exception and return a result value, so
  remote interaction is modelled as explicit result-value parameters.
-/

/-- `JobStatus` of `app/models/tts_training_job.py`. -/
inductive JobStatus where
  | queued
  | preparing
  | training
  | completed
  | failed
  | cancelled
deriving DecidableEq, Repr

/-- `RunPodJobStatus` of `app/services/runpod_service.py`. -/
inductive RunPodJobStatus where
  | inQueue
  | inProgress
  | completed
  | failed
  | cancelled
  | timedOut
deriving DecidableEq, Repr

/-- `DatasetStatus` of `app/models/tts_dataset.py`. -/
inductive DatasetStatus where
  | pending
  | processing
  | ready
  | failedStatus
deriving DecidableEq, Repr

/-- The columns of `TTSTrainingJob` that the queue coordinator reads or
writes (`app/models/tts_training_job.py`). -/
structure TTSTrainingJob where
  id : Nat
  user_id : Nat
  dataset_id : Nat
  name : String
  status : JobStatus
  runpod_job_id : Option String
  queue_position : Option Nat
  epochs : Nat
  learning_rate : Rat
  batch_size : Nat
  current_epoch : Option Nat
  current_step : Option Nat
  total_steps : Option Nat
  loss : Option Rat
  model_id : Option Nat
  error_message : Option String
  created_at : Nat
  started_at : Option Nat
  completed_at : Option Nat
deriving DecidableEq, Repr

/-- The columns of `TTSModel` that the coordinator writes
(`app/models/tts_model.py`); one row is one ModelArtifact. -/
structure TTSModel where
  id : Nat
  user_id : Nat
  training_job_id : Nat
  name : String
  model_s3_key : String
  model_size_bytes : Option Nat
  training_epochs : Nat
  training_samples : Option Nat
  final_loss : Option Rat
deriving DecidableEq, Repr

/-- The columns of `TTSDataset` that `create_training_job` reads
(`app/models/tts_dataset.py`). -/
structure TTSDataset where
  id : Nat
  user_id : Nat
  status : DatasetStatus
  audio_s3_key : String
  training_data_s3_key : Option String
deriving DecidableEq, Repr

/-- The keys of the remote `output` dict that the coordinator reads; a `none`
field is an absent key. -/
structure RunPodOutput where
  current_epoch : Option Nat
  current_step : Option Nat
  total_steps : Option Nat
  loss : Option Rat
  model_s3_key : Option String
  model_size_bytes : Option Nat
  training_samples : Option Nat
  final_loss : Option Rat
deriving DecidableEq, Repr

/-- A `RunPodOutput` with every key absent. -/
def RunPodOutput.empty : RunPodOutput :=
  ⟨none, none, none, none, none, none, none, none⟩

/-- `RunPodJobResult` of `app/services/runpod_service.py`. -/
structure RunPodJobResult where
  job_id : String
  status : RunPodJobStatus
  output : Option RunPodOutput
  error : Option String
deriving DecidableEq, Repr

/-- Python truthiness of an optional string: `None` and `""` are falsy. -/
def strTruthy : Option String → Bool
  | some s => !s.isEmpty
  | none => false

/-- Python `a or b` on an optional float `a` (`None` and `0.0` are falsy),
as in `output.get("final_loss") or job.loss`. -/
def pyOrRat (a : Option Rat) (b : Option Rat) : Option Rat :=
  match a with
  | some x => if x = 0 then b else some x
  | none => b

/-- Python `a or b` on an optional string `a` with a string default, as in
`runpod_result.error or "Job failed"`. -/
def pyOrStr (a : Option String) (b : String) : String :=
  match a with
  | some s => if s.isEmpty then b else s
  | none => b

/-- The persistent store the coordinator owns: the `tts_training_jobs` table
(in creation order), the `tts_models` table, and the `tts_datasets` rows the
coordinator reads. -/
structure Store where
  jobs : List TTSTrainingJob
  models : List TTSModel
  datasets : List TTSDataset
deriving DecidableEq, Repr

/-- `_update_job_from_runpod` of `app/services/job_queue.py`: the reconcile
transition. `now` stands for `datetime.utcnow()` and `freshId` for the
`uuid4()` used for a newly created model row. Returns the updated job row
and the list of model rows added by `db.add` (empty or a singleton). -/
def update_job_from_runpod (now freshId : Nat) (job : TTSTrainingJob)
    (res : RunPodJobResult) : TTSTrainingJob × List TTSModel :=
  if res.status = RunPodJobStatus.inProgress then
    let job1 :=
      if job.status ≠ JobStatus.training then
        { job with
          status := JobStatus.training
          started_at := some now
          queue_position := none }
      else job
    match res.output with
    | some output =>
      let job2 :=
        match output.current_epoch with
        | some v => { job1 with current_epoch := some v }
        | none => job1
      let job3 :=
        match output.current_step with
        | some v => { job2 with current_step := some v }
        | none => job2
      let job4 :=
        match output.total_steps with
        | some v => { job3 with total_steps := some v }
        | none => job3
      let job5 :=
        match output.loss with
        | some v => { job4 with loss := some v }
        | none => job4
      (job5, [])
    | none => (job1, [])
  else if res.status = RunPodJobStatus.completed then
    let job1 :=
      { job with
        status := JobStatus.completed
        completed_at := some now
        queue_position := none }
    match res.output with
    | some output =>
      match output.model_s3_key with
      | some key =>
        if key.isEmpty then (job1, [])
        else
          let model : TTSModel :=
            { id := freshId
              user_id := job1.user_id
              training_job_id := job1.id
              name := job1.name ++ " Model"
              model_s3_key := key
              model_size_bytes := output.model_size_bytes
              training_epochs := job1.epochs
              training_samples := output.training_samples
              final_loss := pyOrRat output.final_loss job1.loss }
          ({ job1 with model_id := some model.id }, [model])
      | none => (job1, [])
    | none => (job1, [])
  else if res.status = RunPodJobStatus.failed ∨
      res.status = RunPodJobStatus.timedOut then
    ({ job with
       status := JobStatus.failed
       error_message := some (pyOrStr res.error "Job failed")
       completed_at := some now
       queue_position := none }, [])
  else if res.status = RunPodJobStatus.cancelled then
    ({ job with
       status := JobStatus.cancelled
       completed_at := some now
       queue_position := none }, [])
  else (job, [])

/-- The outcome of `create_training_job`: the `ValueError` messages become
error codes. -/
inductive CreateError where
  | datasetNotFound
  | datasetNotReady
  | noTrainingData
  | submissionFailed
deriving DecidableEq, Repr

/-- The result side of a `create_training_job` call. -/
inductive CreateResult where
  | ok (job : TTSTrainingJob)
  | err (e : CreateError)
deriving DecidableEq, Repr

/-- The full outcome of a `create_training_job` call: the store after the
call, the returned job or raised error, and the number of remote
submission attempts the call made. -/
structure CreateOutcome where
  store : Store
  result : CreateResult
  submitAttempts : Nat
deriving DecidableEq, Repr

/-- `j.status IN (QUEUED, PREPARING)` — the count used for the new job's
queue position. -/
def isActiveQP (j : TTSTrainingJob) : Bool :=
  j.status = JobStatus.queued || j.status = JobStatus.preparing

/-- `create_training_job` of `app/services/job_queue.py`. `jobId` stands for
the `uuid4()` of the new row, `now` for the row's `created_at`, and `sub`
for the `RunPodJobResult` returned by `runpod_service.submit_training_job`
(which catches every exception and reports failure through its `error`
field, so it is a plain value here). -/
def create_training_job (s : Store) (user_id dataset_id : Nat) (name : String)
    (epochs : Nat) (learning_rate : Rat) (batch_size : Nat)
    (jobId now : Nat) (sub : RunPodJobResult) : CreateOutcome :=
  match s.datasets.find? (fun d => d.id = dataset_id && d.user_id = user_id) with
  | none => ⟨s, CreateResult.err CreateError.datasetNotFound, 0⟩
  | some dataset =>
    if dataset.status ≠ DatasetStatus.ready then
      ⟨s, CreateResult.err CreateError.datasetNotReady, 0⟩
    else if !strTruthy dataset.training_data_s3_key then
      ⟨s, CreateResult.err CreateError.noTrainingData, 0⟩
    else
      let queue_position := (s.jobs.filter isActiveQP).length + 1
      let job : TTSTrainingJob :=
        { id := jobId
          user_id := user_id
          dataset_id := dataset_id
          name := name
          status := JobStatus.queued
          runpod_job_id := none
          queue_position := some queue_position
          epochs := epochs
          learning_rate := learning_rate
          batch_size := batch_size
          current_epoch := none
          current_step := none
          total_steps := none
          loss := none
          model_id := none
          error_message := none
          created_at := now
          started_at := none
          completed_at := none }
      if strTruthy sub.error then
        let failedJob :=
          { job with
            status := JobStatus.failed
            error_message := sub.error }
        ⟨{ s with jobs := s.jobs ++ [failedJob] },
          CreateResult.err CreateError.submissionFailed, 1⟩
      else
        let readyJob :=
          { job with
            runpod_job_id := some sub.job_id
            status := JobStatus.preparing }
        ⟨{ s with jobs := s.jobs ++ [readyJob] }, CreateResult.ok readyJob, 1⟩

/-- The outcome of `cancel_training_job`: the `ValueError` messages become
error codes. -/
inductive CancelError where
  | notFound
  | invalidState
deriving DecidableEq, Repr

/-- The result side of a `cancel_training_job` call (`.ok true` models the
function returning `True`). -/
inductive CancelResult where
  | ok (b : Bool)
  | err (e : CancelError)
deriving DecidableEq, Repr

/-- `j.status in [COMPLETED, FAILED, CANCELLED]` — the terminal-state guard
of `cancel_training_job`. -/
def isTerminal (j : TTSTrainingJob) : Bool :=
  j.status = JobStatus.completed || j.status = JobStatus.failed ||
    j.status = JobStatus.cancelled

/-- Replace the first element satisfying `p` by its image under `f`. -/
def updateFirst (p : α → Bool) (f : α → α) : List α → List α
  | [] => []
  | x :: xs => if p x then f x :: xs else x :: updateFirst p f xs

/-- `cancel_training_job` of `app/services/job_queue.py`. `now` stands for
`datetime.utcnow()`. The best-effort remote cancellation
(`runpod_service.cancel_job`, which catches every exception and returns a
bool the caller ignores) has no effect on the store, so it does not appear.
Note the source sets only `status` and `completed_at` on the row. -/
def cancel_training_job (s : Store) (job_id user_id : Nat) (now : Nat) :
    Store × CancelResult :=
  match s.jobs.find? (fun j => j.id = job_id && j.user_id = user_id) with
  | none => (s, CancelResult.err CancelError.notFound)
  | some job =>
    if isTerminal job then
      (s, CancelResult.err CancelError.invalidState)
    else
      ({ s with
         jobs := updateFirst
           (fun j => j.id = job_id && j.user_id = user_id)
           (fun j => { j with
             status := JobStatus.cancelled
             completed_at := some now }) s.jobs },
        CancelResult.ok true)

/-- `j.status IN (QUEUED, PREPARING, TRAINING)` — the active-job filter of
the poll loop and of `get_queue_status`. -/
def isActiveStatus (j : TTSTrainingJob) : Bool :=
  j.status = JobStatus.queued || j.status = JobStatus.preparing ||
    j.status = JobStatus.training

/-- The per-job reconciliation pass of `_poll_active_jobs`: every job whose
status is active and whose `runpod_job_id` is set has its remote status
fetched (`rem` models `runpod_service.get_job_status`, which catches every
exception and always returns a result) and `_update_job_from_runpod`
applied. Fresh model ids are drawn from the counter `fid`. Returns the
updated rows, the model rows added during the pass, and the next fresh id. -/
def reconcilePass (rem : String → RunPodJobResult) (now : Nat) :
    Nat → List TTSTrainingJob → List TTSTrainingJob × List TTSModel × Nat
  | fid, [] => ([], [], fid)
  | fid, j :: js =>
    match j.runpod_job_id with
    | some h =>
      if isActiveStatus j then
        let p := update_job_from_runpod now fid j (rem h)
        let rest := reconcilePass rem now (fid + 1) js
        (p.1 :: rest.1, p.2 ++ rest.2.1, rest.2.2)
      else
        let rest := reconcilePass rem now fid js
        (j :: rest.1, rest.2.1, rest.2.2)
    | none =>
      let rest := reconcilePass rem now fid js
      (j :: rest.1, rest.2.1, rest.2.2)

/-- The queue-position maintenance pass of `_poll_active_jobs`: jobs still in
QUEUED status, in creation order (`ORDER BY created_at`, which is list order
here), receive positions `k, k+1, ...`; other rows are untouched. -/
def renumberQueued (k : Nat) : List TTSTrainingJob → List TTSTrainingJob
  | [] => []
  | j :: js =>
    if j.status = JobStatus.queued then
      { j with queue_position := some k } :: renumberQueued (k + 1) js
    else
      j :: renumberQueued k js

/-- One tick of `_poll_active_jobs` of `app/services/job_queue.py`:
reconcile every active job that has a remote handle, then renumber the
still-QUEUED jobs 1-based in creation order. -/
def poll_active_jobs (rem : String → RunPodJobResult) (now fid : Nat)
    (s : Store) : Store :=
  let p := reconcilePass rem now fid s.jobs
  { s with jobs := renumberQueued 1 p.1, models := s.models ++ p.2.1 }

/-- The parameters one poll tick depends on: the remote status snapshot, the
clock value, and the fresh-id counter. -/
structure TickEnv where
  rem : String → RunPodJobResult
  now : Nat
  fid : Nat

/-- A sequence of poll-loop ticks (`_polling_loop` iterating
`_poll_active_jobs`). -/
def pollTicks (ticks : List TickEnv) (s : Store) : Store :=
  ticks.foldl (fun acc t => poll_active_jobs t.rem t.now t.fid acc) s

/-- The dict returned by `get_queue_status`. -/
structure QueueStatus where
  total_queued : Nat
  total_training : Nat
  total_active : Nat
deriving DecidableEq, Repr

/-- `get_queue_status` of `app/services/job_queue.py`. -/
def get_queue_status (s : Store) : QueueStatus :=
  let jobs := s.jobs.filter isActiveStatus
  { total_queued :=
      (jobs.filter (fun j => j.status = JobStatus.queued)).length
    total_training :=
      (jobs.filter (fun j =>
        j.status = JobStatus.preparing || j.status = JobStatus.training)).length
    total_active := jobs.length }

/-- The terminal values of `RunPodJobStatus` (everything but `IN_QUEUE` and
`IN_PROGRESS`). -/
def isTerminalRemote (st : RunPodJobStatus) : Bool :=
  st = RunPodJobStatus.completed || st = RunPodJobStatus.failed ||
    st = RunPodJobStatus.timedOut || st = RunPodJobStatus.cancelled

/-- The value a progress field holds after an `IN_PROGRESS` update: the
remote output's value when the key is present, the old value otherwise. -/
def pickProgress (o : Option RunPodOutput) (get : RunPodOutput → Option α)
    (old : Option α) : Option α :=
  match o with
  | some out =>
    match get out with
    | some v => some v
    | none => old
  | none => old

/-- The first half of the spec's queue-position invariant as a boolean check:
`queue_position` is non-null exactly on QUEUED jobs. -/
def queuePosIffQueued (s : Store) : Bool :=
  s.jobs.all (fun j =>
    j.queue_position.isSome == decide (j.status = JobStatus.queued))

/-- The QUEUED jobs of `l`, in list (creation) order, carry queue positions
`k, k+1, ...`. -/
def queuedRanksFrom (k : Nat) : List TTSTrainingJob → Bool
  | [] => true
  | j :: js =>
    if j.status = JobStatus.queued then
      j.queue_position == some k && queuedRanksFrom (k + 1) js
    else
      queuedRanksFrom k js

/-- The jobs of `l` with status in {QUEUED, PREPARING}, in list (creation)
order, carry queue positions `k, k+1, ...`. -/
def activeStaircaseFrom (k : Nat) : List TTSTrainingJob → Bool
  | [] => true
  | j :: js =>
    if isActiveQP j then
      j.queue_position == some k && activeStaircaseFrom (k + 1) js
    else
      activeStaircaseFrom k js

/-- The arguments of one `create_training_job` call, including its clock
value, fresh job id, and the remote submission result. -/
structure CreateArgs where
  user_id : Nat
  dataset_id : Nat
  name : String
  epochs : Nat
  learning_rate : Rat
  batch_size : Nat
  jobId : Nat
  now : Nat
  sub : RunPodJobResult

/-- A sequence of `create_training_job` calls (and nothing else) applied to a
store. -/
def createSeq (s : Store) : List CreateArgs → Store
  | [] => s
  | a :: as =>
    createSeq (create_training_job s a.user_id a.dataset_id a.name a.epochs
      a.learning_rate a.batch_size a.jobId a.now a.sub).store as

/-- A READY dataset with training data, owned by user 7. -/
def dataset0 : TTSDataset :=
  { id := 1
    user_id := 7
    status := DatasetStatus.ready
    audio_s3_key := "a.wav"
    training_data_s3_key := some "train.jsonl" }

/-- A store with no jobs and the one ready dataset. -/
def store0 : Store := ⟨[], [], [dataset0]⟩

/-- A successful remote submission result. -/
def subOk : RunPodJobResult :=
  { job_id := "rp-1", status := RunPodJobStatus.inQueue
    output := none, error := none }

/-- A failed remote submission result. -/
def subErr : RunPodJobResult :=
  { job_id := "", status := RunPodJobStatus.failed
    output := none, error := some "boom" }

/-- A template job row: freshly queued, owned by user 7. -/
def baseJob : TTSTrainingJob :=
  { id := 1
    user_id := 7
    dataset_id := 1
    name := "j"
    status := JobStatus.queued
    runpod_job_id := none
    queue_position := none
    epochs := 3
    learning_rate := 1
    batch_size := 4
    current_epoch := none
    current_step := none
    total_steps := none
    loss := none
    model_id := none
    error_message := none
    created_at := 0
    started_at := none
    completed_at := none }

/-- A PREPARING job with a remote handle. -/
def jobC1 : TTSTrainingJob :=
  { baseJob with
    status := JobStatus.preparing
    runpod_job_id := some "rp-1"
    queue_position := some 1 }

/-- A terminal COMPLETED remote result carrying an artifact pointer. -/
def resC1 : RunPodJobResult :=
  { job_id := "rp-1"
    status := RunPodJobStatus.completed
    output := some { RunPodOutput.empty with model_s3_key := some "k" }
    error := none }

/-- A TRAINING job whose last recorded loss is 3. -/
def jobC5 : TTSTrainingJob :=
  { baseJob with
    status := JobStatus.training
    runpod_job_id := some "rp-1"
    loss := some 3 }

/-- A COMPLETED remote result whose output carries the pointer "k" and
`final_loss` 0.0 (falsy in Python). -/
def resC5 : RunPodJobResult :=
  { job_id := "rp-1"
    status := RunPodJobStatus.completed
    output := some { RunPodOutput.empty with
      model_s3_key := some "k", final_loss := some 0 }
    error := none }

/-- A PREPARING job, as in the spec's completion example. -/
def jobC5w : TTSTrainingJob :=
  { baseJob with
    status := JobStatus.preparing
    runpod_job_id := some "rp-1"
    queue_position := some 1 }

/-- The spec's completion example: `{status: COMPLETED, output:
{model_s3_key: "k", final_loss: 0.5}}`. -/
def resC5w : RunPodJobResult :=
  { job_id := "rp-1"
    status := RunPodJobStatus.completed
    output := some { RunPodOutput.empty with
      model_s3_key := some "k", final_loss := some (mkRat 1 2) }
    error := none }

/-- A TRAINING job that has already recorded `current_step = 5`. -/
def jobC6 : TTSTrainingJob :=
  { baseJob with
    status := JobStatus.training
    runpod_job_id := some "rp-1"
    current_step := some 5
    started_at := some 2 }

/-- An `IN_PROGRESS` remote result whose output carries no progress keys. -/
def resC6 : RunPodJobResult :=
  { job_id := "rp-1"
    status := RunPodJobStatus.inProgress
    output := some RunPodOutput.empty
    error := none }

/-- A terminal CANCELLED remote result with no output. -/
def resW : RunPodJobResult :=
  { job_id := "rp-1"
    status := RunPodJobStatus.cancelled
    output := none
    error := none }

/-- A store holding one QUEUED job (id 1, user 7) at queue position 1. -/
def storeC3 : Store := ⟨[{ baseJob with queue_position := some 1 }], [], []⟩

/-- A store holding one COMPLETED job (id 1, user 7). -/
def storeC8 : Store := ⟨[{ baseJob with status := JobStatus.completed }], [], []⟩

/-- A store holding one QUEUED job with no remote handle. -/
def storeC4 : Store := ⟨[baseJob], [], []⟩

/-- A poll tick whose remote always reports `IN_PROGRESS`. -/
def tickW : TickEnv :=
  ⟨fun _ => { job_id := "x", status := RunPodJobStatus.inProgress
              output := none, error := none }, 5, 0⟩

/-- Helper: counting QUEUED jobs inside the active filter equals counting them
in the whole table (QUEUED implies active). -/
theorem filter_active_filter_queued (l : List TTSTrainingJob) :
    (l.filter isActiveStatus).filter (fun j => j.status = JobStatus.queued) =
      l.filter (fun j => j.status = JobStatus.queued) := by
  rw [List.filter_filter]
  exact List.filter_congr (fun a _ => by cases h : a.status <;> simp [isActiveStatus, h])

/-- Helper: counting PREPARING-or-TRAINING jobs inside the active filter
equals counting them in the whole table. -/
theorem filter_active_filter_training (l : List TTSTrainingJob) :
    (l.filter isActiveStatus).filter (fun j =>
        j.status = JobStatus.preparing || j.status = JobStatus.training) =
      l.filter (fun j =>
        j.status = JobStatus.preparing || j.status = JobStatus.training) := by
  rw [List.filter_filter]
  exact List.filter_congr (fun a _ => by cases h : a.status <;> simp [isActiveStatus, h])

/-- Helper: a list of active-status jobs is partitioned by QUEUED versus
PREPARING-or-TRAINING. -/
theorem filter_partition_of_active (l : List TTSTrainingJob)
    (h : ∀ j ∈ l, isActiveStatus j = true) :
    l.length =
      (l.filter (fun j => j.status = JobStatus.queued)).length +
      (l.filter (fun j => j.status = JobStatus.preparing ||
        j.status = JobStatus.training)).length := by
  induction l with
  | nil => simp
  | cons j js ih =>
    have hj := h j (List.mem_cons_self j js)
    have hjs : ∀ x ∈ js, isActiveStatus x = true :=
      fun x hx => h x (List.mem_cons_of_mem j hx)
    have ihr := ih hjs
    cases hst : j.status <;>
      simp [List.filter_cons, hst, isActiveStatus] at hj ⊢ <;> omega

/-- C10: for every store, `get_queue_status` reports `total_queued` as the
number of QUEUED jobs, `total_training` as the number of PREPARING or
TRAINING jobs (so PREPARING is reported under training, not queued), and
`total_active` as their sum. -/
theorem get_queue_status_partition (s : Store) :
    (get_queue_status s).total_queued =
      (s.jobs.filter (fun j => j.status = JobStatus.queued)).length ∧
    (get_queue_status s).total_training =
      (s.jobs.filter (fun j =>
        j.status = JobStatus.preparing || j.status = JobStatus.training)).length ∧
    (get_queue_status s).total_active =
      (get_queue_status s).total_queued + (get_queue_status s).total_training := by
  refine ⟨?_, ?_, ?_⟩
  · show ((s.jobs.filter isActiveStatus).filter _).length = _
    rw [filter_active_filter_queued]
  · show ((s.jobs.filter isActiveStatus).filter _).length = _
    rw [filter_active_filter_training]
  · exact filter_partition_of_active _ (fun j hj => (List.mem_filter.mp hj).2)

/-- C6: for a job in TRAINING and an `IN_PROGRESS` remote result, reconcile
writes exactly the progress fields whose keys are present in the remote
output and leaves every other field (including absent progress keys,
`started_at` and `queue_position`) unchanged, and creates no model row. -/
theorem reconcile_inprogress_partial_update (job : TTSTrainingJob)
    (res : RunPodJobResult) (now fid : Nat)
    (hst : job.status = JobStatus.training)
    (hres : res.status = RunPodJobStatus.inProgress) :
    update_job_from_runpod now fid job res =
      ({ job with
         current_epoch := pickProgress res.output RunPodOutput.current_epoch job.current_epoch
         current_step := pickProgress res.output RunPodOutput.current_step job.current_step
         total_steps := pickProgress res.output RunPodOutput.total_steps job.total_steps
         loss := pickProgress res.output RunPodOutput.loss job.loss }, []) := by
  obtain ⟨jid, juid, jdid, jnm, jst, jrp, jqp, jep, jlr, jbs, jce, jcs, jts,
    jls, jmi, jem, jca, jsa, jco⟩ := job
  simp only at hst
  subst hst
  cases ho : res.output with
  | none => simp [update_job_from_runpod, hres, ho, pickProgress]
  | some out =>
    obtain ⟨ce, cs, ts, ls, k, mb, tsamp, fl⟩ := out
    cases ce <;> cases cs <;> cases ts <;> cases ls <;>
      simp [update_job_from_runpod, hres, ho, pickProgress]

/-- C6 witness: a TRAINING job that already recorded `current_step = 5`,
reconciled with an `IN_PROGRESS` result omitting every progress key, is
returned completely unchanged, in particular `current_step` is still 5. -/
theorem reconcile_inprogress_partial_update_witness :
    update_job_from_runpod 7 0 jobC6 resC6 = (jobC6, []) := by
  rw [reconcile_inprogress_partial_update jobC6 resC6 7 0 rfl rfl]
  decide

/-- C8: `cancel_training_job` returns NotFound when no job matches the id and
the calling user, returns InvalidState when the matched job is COMPLETED,
FAILED or CANCELLED, and in both failing cases returns the store unchanged. -/
theorem cancel_error_paths (s : Store) (job_id user_id now : Nat) :
    (s.jobs.find? (fun j => j.id = job_id && j.user_id = user_id) = none →
      cancel_training_job s job_id user_id now =
        (s, CancelResult.err CancelError.notFound)) ∧
    (∀ j, s.jobs.find? (fun j => j.id = job_id && j.user_id = user_id) = some j →
      isTerminal j = true →
      cancel_training_job s job_id user_id now =
        (s, CancelResult.err CancelError.invalidState)) := by
  constructor
  · intro h
    simp [cancel_training_job, h]
  · intro j hj ht
    simp [cancel_training_job, hj, ht]

/-- C8 witness: cancelling in an empty store yields NotFound, and cancelling
a COMPLETED job yields InvalidState, both leaving the store unchanged. -/
theorem cancel_error_paths_witness :
    cancel_training_job ⟨[], [], []⟩ 1 7 99 =
      (⟨[], [], []⟩, CancelResult.err CancelError.notFound) ∧
    cancel_training_job storeC8 1 7 99 =
      (storeC8, CancelResult.err CancelError.invalidState) :=
  ⟨(cancel_error_paths ⟨[], [], []⟩ 1 7 99).1 rfl,
   (cancel_error_paths storeC8 1 7 99).2
     { baseJob with status := JobStatus.completed } (by decide) (by decide)⟩

/-- C1 counterexample: reconciling a PREPARING job twice with the same
terminal COMPLETED result (carrying an artifact pointer) creates a model row
the second time as well, changes the job state, and changes `completed_at`. -/
theorem reconcile_not_idempotent_counterexample :
    (update_job_from_runpod 20 101
      (update_job_from_runpod 10 100 jobC1 resC1).1 resC1).2.length = 1 ∧
    (update_job_from_runpod 20 101
      (update_job_from_runpod 10 100 jobC1 resC1).1 resC1).1 ≠
      (update_job_from_runpod 10 100 jobC1 resC1).1 ∧
    (update_job_from_runpod 20 101
      (update_job_from_runpod 10 100 jobC1 resC1).1 resC1).1.completed_at ≠
      (update_job_from_runpod 10 100 jobC1 resC1).1.completed_at := by decide

/-- C5 counterexample: a COMPLETED remote result carrying pointer "k" and
`final_loss` 0.0 produces a ModelArtifact whose `final_loss` is the job's
last recorded loss 3, not the remote output's 0 (Python `or` treats 0.0 as
falsy). -/
theorem completed_final_loss_counterexample :
    (update_job_from_runpod 10 100 jobC5 resC5).2.map TTSModel.final_loss =
      [some 3] ∧
    (update_job_from_runpod 10 100 jobC5 resC5).1.model_id = some 100 ∧
    resC5.output = some { RunPodOutput.empty with
      model_s3_key := some "k", final_loss := some 0 } ∧
    ¬ (update_job_from_runpod 10 100 jobC5 resC5).2.map TTSModel.final_loss =
      [some 0] := by decide

/-- C2 counterexample: after one successful `create_training_job` on an
otherwise empty store, the job is PREPARING yet still carries
`queue_position = 1`, so non-null `queue_position` does not imply QUEUED. -/
theorem queue_position_invariant_counterexample :
    queuePosIffQueued (create_training_job store0 7 1 "j" 3 1 4 11 0 subOk).store
      = false ∧
    ((create_training_job store0 7 1 "j" 3 1 4 11 0 subOk).store.jobs.map
      (fun j => (j.status, j.queue_position))) =
      [(JobStatus.preparing, some 1)] := by decide

/-- C3 counterexample: cancelling a QUEUED job at position 1 succeeds but
leaves `queue_position = 1` set on the CANCELLED job; the claimed
`queue_position == null` does not hold. -/
theorem cancel_queue_position_counterexample :
    (cancel_training_job storeC3 1 7 99).2 = CancelResult.ok true ∧
    ((cancel_training_job storeC3 1 7 99).1.jobs.map
      (fun j => (j.status, j.queue_position))) =
      [(JobStatus.cancelled, some 1)] := by decide

/-- C7 counterexample: after N = 1 `create_training_job` call with a
successful submission, there are no QUEUED jobs at all (the job is
PREPARING), so the QUEUED jobs do not carry positions `1..N`. -/
theorem create_queued_positions_counterexample :
    ((create_training_job store0 7 1 "j" 3 1 4 11 0 subOk).store.jobs.filter
       (fun j => j.status = JobStatus.queued)).map TTSTrainingJob.queue_position
      ≠ [some 1] ∧
    ((create_training_job store0 7 1 "j" 3 1 4 11 0 subOk).store.jobs.map
       (fun j => (j.status, j.queue_position))) =
      [(JobStatus.preparing, some 1)] := by decide

/-- C9 counterexample: a `create_training_job` call whose dataset lookup
fails creates no job row and makes no submission attempt, so not every
execution creates exactly one row. -/
theorem create_no_row_counterexample :
    create_training_job ⟨[], [], []⟩ 7 1 "j" 3 1 4 11 0 subOk =
      ⟨⟨[], [], []⟩, CreateResult.err CreateError.datasetNotFound, 0⟩ := by decide

/-- C5 amended: reconciling any non-terminal job with a COMPLETED remote
result sets status COMPLETED, `completed_at`, and nulls `queue_position`;
exactly when the output carries a non-empty artifact pointer it creates one
ModelArtifact and links `model_id` to it, with `final_loss` taken from the
remote output when present and nonzero and falling back to the job's last
recorded loss otherwise; with no (or an empty) pointer, `model_id` is
unchanged. -/
theorem reconcile_completed_artifact (job : TTSTrainingJob)
    (res : RunPodJobResult) (now fid : Nat)
    (_hnt : isTerminal job = false)
    (hres : res.status = RunPodJobStatus.completed) :
    (update_job_from_runpod now fid job res).1.status = JobStatus.completed ∧
    (update_job_from_runpod now fid job res).1.completed_at = some now ∧
    (update_job_from_runpod now fid job res).1.queue_position = none ∧
    (match res.output with
     | some o =>
       match o.model_s3_key with
       | some k =>
         if k.isEmpty then
           (update_job_from_runpod now fid job res).2 = [] ∧
           (update_job_from_runpod now fid job res).1.model_id = job.model_id
         else
           ∃ m, (update_job_from_runpod now fid job res).2 = [m] ∧
             (update_job_from_runpod now fid job res).1.model_id = some m.id ∧
             m.id = fid ∧ m.user_id = job.user_id ∧ m.training_job_id = job.id ∧
             m.model_s3_key = k ∧ m.training_epochs = job.epochs ∧
             (∀ v, o.final_loss = some v → v ≠ 0 → m.final_loss = some v) ∧
             ((o.final_loss = none ∨ o.final_loss = some 0) →
               m.final_loss = job.loss)
       | none =>
         (update_job_from_runpod now fid job res).2 = [] ∧
         (update_job_from_runpod now fid job res).1.model_id = job.model_id
     | none =>
       (update_job_from_runpod now fid job res).2 = [] ∧
       (update_job_from_runpod now fid job res).1.model_id = job.model_id) := by
  rcases res with ⟨rjid, rst, rout, rerr⟩
  dsimp only at hres ⊢
  subst hres
  cases rout with
  | none => simp [update_job_from_runpod]
  | some o =>
    cases hk : o.model_s3_key with
    | none => simp [update_job_from_runpod, hk]
    | some k =>
      by_cases hke : k.isEmpty
      · simp [update_job_from_runpod, hk, hke]
      · simp only [update_job_from_runpod, hk, hke]
        refine ⟨by simp, by simp, by simp, ?_⟩
        refine ⟨{ id := fid, user_id := job.user_id, training_job_id := job.id,
                  name := job.name ++ " Model", model_s3_key := k,
                  model_size_bytes := o.model_size_bytes,
                  training_epochs := job.epochs,
                  training_samples := o.training_samples,
                  final_loss := pyOrRat o.final_loss job.loss },
                by simp, by simp, rfl, rfl, rfl, rfl, rfl, ?_, ?_⟩
        · intro v hv hv0
          simp [pyOrRat, hv, hv0]
        · rintro (hfl | hfl) <;> simp [pyOrRat, hfl]

/-- C1 amended: re-applying reconcile with the same terminal remote result
keeps the terminal status and null `queue_position`, but re-stamps
`completed_at` with the new clock value and creates a fresh model row
exactly when the first application did; the second application is a no-op
only when no artifact pointer is involved and the clock has not moved. -/
theorem reconcile_terminal_reapply (job : TTSTrainingJob)
    (res : RunPodJobResult) (now fid now2 fid2 : Nat)
    (h : isTerminalRemote res.status = true) :
    (update_job_from_runpod now2 fid2
        (update_job_from_runpod now fid job res).1 res).1.status =
      (update_job_from_runpod now fid job res).1.status ∧
    (update_job_from_runpod now fid job res).1.queue_position = none ∧
    (update_job_from_runpod now2 fid2
        (update_job_from_runpod now fid job res).1 res).1.queue_position = none ∧
    (update_job_from_runpod now2 fid2
        (update_job_from_runpod now fid job res).1 res).1.completed_at =
      some now2 ∧
    (update_job_from_runpod now2 fid2
        (update_job_from_runpod now fid job res).1 res).2.length =
      (update_job_from_runpod now fid job res).2.length ∧
    ((update_job_from_runpod now fid job res).2 = [] → now2 = now →
      update_job_from_runpod now2 fid2
          (update_job_from_runpod now fid job res).1 res =
        update_job_from_runpod now fid job res) := by
  rcases res with ⟨rjid, rst, rout, rerr⟩
  dsimp only at h ⊢
  cases rst with
  | inQueue => simp [isTerminalRemote] at h
  | inProgress => simp [isTerminalRemote] at h
  | completed =>
    cases rout with
    | none =>
      refine ⟨by simp [update_job_from_runpod], by simp [update_job_from_runpod],
        by simp [update_job_from_runpod], by simp [update_job_from_runpod],
        by simp [update_job_from_runpod], ?_⟩
      intro hp hnow
      subst hnow
      simp [update_job_from_runpod]
    | some o =>
      cases hk : o.model_s3_key with
      | none =>
        refine ⟨by simp [update_job_from_runpod, hk],
          by simp [update_job_from_runpod, hk],
          by simp [update_job_from_runpod, hk],
          by simp [update_job_from_runpod, hk],
          by simp [update_job_from_runpod, hk], ?_⟩
        intro hp hnow
        subst hnow
        simp [update_job_from_runpod, hk]
      | some k =>
        by_cases hke : k.isEmpty
        · refine ⟨by simp [update_job_from_runpod, hk, hke],
            by simp [update_job_from_runpod, hk, hke],
            by simp [update_job_from_runpod, hk, hke],
            by simp [update_job_from_runpod, hk, hke],
            by simp [update_job_from_runpod, hk, hke], ?_⟩
          intro hp hnow
          subst hnow
          simp [update_job_from_runpod, hk, hke]
        · refine ⟨by simp [update_job_from_runpod, hk, hke],
            by simp [update_job_from_runpod, hk, hke],
            by simp [update_job_from_runpod, hk, hke],
            by simp [update_job_from_runpod, hk, hke],
            by simp [update_job_from_runpod, hk, hke], ?_⟩
          intro hp
          simp [update_job_from_runpod, hk, hke] at hp
  | failed =>
    refine ⟨by simp [update_job_from_runpod], by simp [update_job_from_runpod],
      by simp [update_job_from_runpod], by simp [update_job_from_runpod],
      by simp [update_job_from_runpod], ?_⟩
    intro hp hnow
    subst hnow
    simp [update_job_from_runpod]
  | timedOut =>
    refine ⟨by simp [update_job_from_runpod], by simp [update_job_from_runpod],
      by simp [update_job_from_runpod], by simp [update_job_from_runpod],
      by simp [update_job_from_runpod], ?_⟩
    intro hp hnow
    subst hnow
    simp [update_job_from_runpod]
  | cancelled =>
    refine ⟨by simp [update_job_from_runpod], by simp [update_job_from_runpod],
      by simp [update_job_from_runpod], by simp [update_job_from_runpod],
      by simp [update_job_from_runpod], ?_⟩
    intro hp hnow
    subst hnow
    simp [update_job_from_runpod]

/-- C1 witness: re-applying a CANCELLED remote result (no output) at the
same clock value reproduces the job state exactly. -/
theorem reconcile_terminal_reapply_witness :
    update_job_from_runpod 5 1 (update_job_from_runpod 5 0 baseJob resW).1 resW =
      update_job_from_runpod 5 0 baseJob resW :=
  (reconcile_terminal_reapply baseJob resW 5 0 5 1 (by decide)).2.2.2.2.2
    (by decide) rfl

/-- C5 witness: the spec's example — a PREPARING job completed with output
`{model_s3_key: "k", final_loss: 0.5}` — yields status COMPLETED, a model
row with `final_loss = 1/2`, and `model_id` linked to it. -/
theorem reconcile_completed_artifact_witness :
    (update_job_from_runpod 10 100 jobC5w resC5w).1.status =
      JobStatus.completed ∧
    (update_job_from_runpod 10 100 jobC5w resC5w).2.map TTSModel.final_loss =
      [some (mkRat 1 2)] ∧
    (update_job_from_runpod 10 100 jobC5w resC5w).1.model_id = some 100 :=
  ⟨(reconcile_completed_artifact jobC5w resC5w 10 100 (by decide) rfl).1,
   by decide, by decide⟩

/-- Helper: updating the first element matched by `p` with an update that
preserves `p` makes `find?` return the updated element. -/
theorem find?_updateFirst (p : α → Bool) (f : α → α) (l : List α) (a : α)
    (hfind : l.find? p = some a) (hp : p (f a) = true) :
    (updateFirst p f l).find? p = some (f a) := by
  induction l with
  | nil => simp at hfind
  | cons x xs ih =>
    by_cases hx : p x
    · rw [List.find?_cons_of_pos _ hx] at hfind
      obtain rfl := Option.some.inj hfind
      simp [updateFirst, hx, hp]
    · rw [List.find?_cons_of_neg _ hx] at hfind
      simp [updateFirst, hx, ih hfind]

/-- C3 amended: cancelling an owned non-terminal job succeeds and updates
exactly that row to status CANCELLED with `completed_at` set to the
cancellation time, regardless of remote-cancellation outcome; its
`queue_position` is left unchanged, not nulled. -/
theorem cancel_success (s : Store) (job_id user_id now : Nat)
    (j : TTSTrainingJob)
    (hfind : s.jobs.find? (fun x => x.id = job_id && x.user_id = user_id) =
      some j)
    (hterm : isTerminal j = false) :
    (cancel_training_job s job_id user_id now).2 = CancelResult.ok true ∧
    (cancel_training_job s job_id user_id now).1.models = s.models ∧
    (cancel_training_job s job_id user_id now).1.jobs =
      updateFirst (fun x => x.id = job_id && x.user_id = user_id)
        (fun x => { x with status := JobStatus.cancelled
                           completed_at := some now }) s.jobs ∧
    (cancel_training_job s job_id user_id now).1.jobs.find?
        (fun x => x.id = job_id && x.user_id = user_id) =
      some { j with status := JobStatus.cancelled
                    completed_at := some now } ∧
    ({ j with status := JobStatus.cancelled
              completed_at := some now } : TTSTrainingJob).queue_position =
      j.queue_position := by
  have hres : cancel_training_job s job_id user_id now =
      ({ s with
          jobs := updateFirst (fun x => x.id = job_id && x.user_id = user_id)
                    (fun x => { x with status := JobStatus.cancelled
                                       completed_at := some now }) s.jobs },
        CancelResult.ok true) := by
    simp [cancel_training_job, hfind, hterm]
  rw [hres]
  refine ⟨rfl, rfl, rfl, ?_, rfl⟩
  dsimp only
  refine find?_updateFirst (fun x => x.id = job_id && x.user_id = user_id)
    (fun x => { x with status := JobStatus.cancelled
                       completed_at := some now }) s.jobs j hfind ?_
  have hp := List.find?_some hfind
  simpa using hp

/-- C3 witness: cancelling the QUEUED job of `storeC3` succeeds and yields a
CANCELLED row with `completed_at = 99` and `queue_position` still 1. -/
theorem cancel_success_witness :
    (cancel_training_job storeC3 1 7 99).2 = CancelResult.ok true ∧
    (cancel_training_job storeC3 1 7 99).1.jobs.find?
        (fun x => x.id = 1 && x.user_id = 7) =
      some { baseJob with queue_position := some 1
                          status := JobStatus.cancelled
                          completed_at := some 99 } :=
  ⟨(cancel_success storeC3 1 7 99 { baseJob with queue_position := some 1 }
      (by decide) (by decide)).1,
   (cancel_success storeC3 1 7 99 { baseJob with queue_position := some 1 }
      (by decide) (by decide)).2.2.2.1⟩

/-- Helper: the renumbering pass assigns QUEUED jobs consecutive 1-based
positions in list (creation) order. -/
theorem queuedRanksFrom_renumber (k : Nat) (l : List TTSTrainingJob) :
    queuedRanksFrom k (renumberQueued k l) = true := by
  induction l generalizing k with
  | nil => rfl
  | cons j js ih =>
    by_cases hq : j.status = JobStatus.queued
    · simp [renumberQueued, hq, queuedRanksFrom, ih]
    · simp [renumberQueued, hq, queuedRanksFrom, ih]

/-- C2 amended: immediately after any poll-loop tick, every QUEUED job's
`queue_position` equals its 1-based rank by creation order among QUEUED
jobs; between ticks, PREPARING, FAILED and CANCELLED rows may retain a stale
non-null `queue_position`, so non-nullness does not imply QUEUED. -/
theorem poll_restores_queued_ranks (rem : String → RunPodJobResult)
    (now fid : Nat) (s : Store) :
    queuedRanksFrom 1 (poll_active_jobs rem now fid s).jobs = true := by
  simp only [poll_active_jobs]
  exact queuedRanksFrom_renumber 1 _

/-- Helper: appending a job preserves the active-position staircase when the
new job, if active, carries the next position. -/
theorem activeStaircase_append (j : TTSTrainingJob) :
    ∀ (k : Nat) (l : List TTSTrainingJob),
      activeStaircaseFrom k l = true →
      (isActiveQP j = true →
        j.queue_position = some (k + (l.filter isActiveQP).length)) →
      activeStaircaseFrom k (l ++ [j]) = true := by
  intro k l
  induction l generalizing k with
  | nil =>
    intro _ hj
    by_cases ha : isActiveQP j
    · simp only [List.nil_append, activeStaircaseFrom, ha, if_true]
      simp [hj ha, activeStaircaseFrom]
    · simp [activeStaircaseFrom, ha]
  | cons x xs ih =>
    intro h hj
    by_cases hx : isActiveQP x
    · simp only [activeStaircaseFrom, hx, if_true, Bool.and_eq_true] at h
      obtain ⟨h1, h2⟩ := h
      simp only [List.cons_append, activeStaircaseFrom, hx, if_true,
        Bool.and_eq_true]
      refine ⟨h1, ih (k + 1) h2 ?_⟩
      intro ha
      rw [hj ha]
      congr 1
      simp [List.filter_cons, hx]
      omega
    · simp only [activeStaircaseFrom, hx, if_false] at h
      simp only [List.cons_append, activeStaircaseFrom, hx, if_false]
      refine ih k h ?_
      intro ha
      rw [hj ha]
      congr 1
      simp [List.filter_cons, hx]

/-- Helper: one `create_training_job` call preserves the invariant that the
QUEUED/PREPARING jobs carry positions `1..M` in creation order. -/
theorem create_preserves_staircase (s : Store) (uid did : Nat) (nm : String)
    (ep : Nat) (lr : Rat) (bs jid tnow : Nat) (sub : RunPodJobResult)
    (h : activeStaircaseFrom 1 s.jobs = true) :
    activeStaircaseFrom 1
      (create_training_job s uid did nm ep lr bs jid tnow sub).store.jobs =
      true := by
  unfold create_training_job
  cases hd : s.datasets.find? (fun d => d.id = did && d.user_id = uid) with
  | none => exact h
  | some dataset =>
    dsimp only
    by_cases h1 : dataset.status ≠ DatasetStatus.ready
    · rw [if_pos h1]
      exact h
    · rw [if_neg h1]
      by_cases h2 : (!strTruthy dataset.training_data_s3_key) = true
      · rw [if_pos h2]
        exact h
      · rw [if_neg h2]
        by_cases h3 : strTruthy sub.error = true
        · rw [if_pos h3]
          refine activeStaircase_append _ 1 s.jobs h ?_
          intro ha
          simp [isActiveQP] at ha
        · rw [if_neg h3]
          refine activeStaircase_append _ 1 s.jobs h ?_
          intro _
          show some ((s.jobs.filter isActiveQP).length + 1) = _
          congr 1
          omega

/-- Helper: any sequence of `create_training_job` calls preserves the
active-position staircase. -/
theorem createSeq_staircase (args : List CreateArgs) :
    ∀ s : Store, activeStaircaseFrom 1 s.jobs = true →
      activeStaircaseFrom 1 (createSeq s args).jobs = true := by
  induction args with
  | nil => intro s h; exact h
  | cons a as ih =>
    intro s h
    exact ih _ (create_preserves_staircase s a.user_id a.dataset_id a.name
      a.epochs a.learning_rate a.batch_size a.jobId a.now a.sub h)

/-- C7 amended: `create_training_job` assigns the new row `queue_position`
equal to the count of QUEUED-or-PREPARING jobs plus one; consequently, after
any sequence of creates with no cancellations starting from an empty job
table, the jobs still QUEUED or PREPARING carry positions exactly `1..M` in
creation order (successful submissions leave jobs PREPARING, not QUEUED, and
failed submissions drop out of the count). -/
theorem create_assigns_count_position :
    (∀ (s : Store) (uid did : Nat) (nm : String) (ep : Nat) (lr : Rat)
        (bs jid tnow : Nat) (sub : RunPodJobResult) (d : TTSDataset),
      s.datasets.find? (fun x => x.id = did && x.user_id = uid) = some d →
      d.status = DatasetStatus.ready →
      strTruthy d.training_data_s3_key = true →
      ∃ j, (create_training_job s uid did nm ep lr bs jid tnow sub).store.jobs =
          s.jobs ++ [j] ∧
        j.queue_position = some ((s.jobs.filter isActiveQP).length + 1)) ∧
    (∀ (ds : List TTSDataset) (args : List CreateArgs),
      activeStaircaseFrom 1 (createSeq ⟨[], [], ds⟩ args).jobs = true) := by
  constructor
  · intro s uid did nm ep lr bs jid tnow sub d hd hready hdata
    unfold create_training_job
    rw [hd]
    dsimp only
    have h1 : ¬ d.status ≠ DatasetStatus.ready := by simp [hready]
    rw [if_neg h1]
    have h2 : ¬ (!strTruthy d.training_data_s3_key) = true := by simp [hdata]
    rw [if_neg h2]
    by_cases h3 : strTruthy sub.error = true
    · rw [if_pos h3]
      exact ⟨_, rfl, rfl⟩
    · rw [if_neg h3]
      exact ⟨_, rfl, rfl⟩
  · intro ds args
    exact createSeq_staircase args ⟨[], [], ds⟩ rfl

/-- C7 witness: a create on the empty store assigns position 1, and two
successful creates produce the active staircase `1, 2`. -/
theorem create_assigns_count_position_witness :
    (∃ j, (create_training_job store0 7 1 "j" 3 1 4 11 0 subOk).store.jobs =
        store0.jobs ++ [j] ∧
      j.queue_position = some ((store0.jobs.filter isActiveQP).length + 1)) ∧
    activeStaircaseFrom 1
      (createSeq ⟨[], [], [dataset0]⟩
        [⟨7, 1, "a", 3, 1, 4, 11, 0, subOk⟩,
         ⟨7, 1, "b", 3, 1, 4, 12, 1, subOk⟩]).jobs = true :=
  ⟨create_assigns_count_position.1 store0 7 1 "j" 3 1 4 11 0 subOk dataset0
      rfl rfl rfl,
   create_assigns_count_position.2 [dataset0]
      [⟨7, 1, "a", 3, 1, 4, 11, 0, subOk⟩,
       ⟨7, 1, "b", 3, 1, 4, 12, 1, subOk⟩]⟩

/-- C9 amended: when validation passes and the remote submission reports an
error, the call fails with SubmissionFailed, makes exactly one submission
attempt, and persists (does not delete) the job row with status FAILED and
`error_message` equal to the submission error; every execution creates at
most one job row (exactly one only when validation passes), makes at most
one submission attempt, and never touches the model table. -/
theorem create_submission_failure_paths :
    (∀ (s : Store) (uid did : Nat) (nm : String) (ep : Nat) (lr : Rat)
        (bs jid tnow : Nat) (sub : RunPodJobResult) (d : TTSDataset),
      s.datasets.find? (fun x => x.id = did && x.user_id = uid) = some d →
      d.status = DatasetStatus.ready →
      strTruthy d.training_data_s3_key = true →
      strTruthy sub.error = true →
      (create_training_job s uid did nm ep lr bs jid tnow sub).result =
        CreateResult.err CreateError.submissionFailed ∧
      (create_training_job s uid did nm ep lr bs jid tnow sub).submitAttempts
        = 1 ∧
      ∃ j, (create_training_job s uid did nm ep lr bs jid tnow sub).store.jobs
          = s.jobs ++ [j] ∧
        j.status = JobStatus.failed ∧ j.error_message = sub.error ∧
        j.runpod_job_id = none) ∧
    (∀ (s : Store) (uid did : Nat) (nm : String) (ep : Nat) (lr : Rat)
        (bs jid tnow : Nat) (sub : RunPodJobResult),
      (create_training_job s uid did nm ep lr bs jid tnow sub).store.jobs.length
        ≤ s.jobs.length + 1 ∧
      (create_training_job s uid did nm ep lr bs jid tnow sub).submitAttempts
        ≤ 1 ∧
      (create_training_job s uid did nm ep lr bs jid tnow sub).store.models =
        s.models) := by
  constructor
  · intro s uid did nm ep lr bs jid tnow sub d hd hready hdata herr
    unfold create_training_job
    rw [hd]
    dsimp only
    have h1 : ¬ d.status ≠ DatasetStatus.ready := by simp [hready]
    rw [if_neg h1]
    have h2 : ¬ (!strTruthy d.training_data_s3_key) = true := by simp [hdata]
    rw [if_neg h2]
    rw [if_pos herr]
    exact ⟨rfl, rfl, _, rfl, rfl, rfl, rfl⟩
  · intro s uid did nm ep lr bs jid tnow sub
    unfold create_training_job
    cases hd : s.datasets.find? (fun d => d.id = did && d.user_id = uid) with
    | none => exact ⟨Nat.le_succ _, Nat.zero_le _, rfl⟩
    | some dataset =>
      dsimp only
      by_cases h1 : dataset.status ≠ DatasetStatus.ready
      · rw [if_pos h1]
        exact ⟨Nat.le_succ _, Nat.zero_le _, rfl⟩
      · rw [if_neg h1]
        by_cases h2 : (!strTruthy dataset.training_data_s3_key) = true
        · rw [if_pos h2]
          exact ⟨Nat.le_succ _, Nat.zero_le _, rfl⟩
        · rw [if_neg h2]
          by_cases h3 : strTruthy sub.error = true
          · rw [if_pos h3]
            refine ⟨?_, le_refl 1, rfl⟩
            simp
          · rw [if_neg h3]
            refine ⟨?_, le_refl 1, rfl⟩
            simp

/-- C9 witness: a failing submission against the ready dataset yields
SubmissionFailed after exactly one submission attempt. -/
theorem create_submission_failure_paths_witness :
    (create_training_job store0 7 1 "j" 3 1 4 11 0 subErr).result =
      CreateResult.err CreateError.submissionFailed ∧
    (create_training_job store0 7 1 "j" 3 1 4 11 0 subErr).submitAttempts = 1 :=
  ⟨(create_submission_failure_paths.1 store0 7 1 "j" 3 1 4 11 0 subErr dataset0
      rfl rfl (by decide) (by decide)).1,
   (create_submission_failure_paths.1 store0 7 1 "j" 3 1 4 11 0 subErr dataset0
      rfl rfl (by decide) (by decide)).2.1⟩

/-- Helper: reconcile never changes a job's id or its remote handle. -/
theorem update_preserves_id_handle (now fid : Nat) (job : TTSTrainingJob)
    (res : RunPodJobResult) :
    (update_job_from_runpod now fid job res).1.id = job.id ∧
    (update_job_from_runpod now fid job res).1.runpod_job_id =
      job.runpod_job_id := by
  rcases res with ⟨rjid, rst, rout, rerr⟩
  cases rst with
  | inQueue => simp [update_job_from_runpod]
  | inProgress =>
    cases rout with
    | none =>
      by_cases hst : job.status = JobStatus.training <;>
        simp [update_job_from_runpod, hst]
    | some o =>
      obtain ⟨ce, cs, ts, ls, k, mb, tsamp, fl⟩ := o
      by_cases hst : job.status = JobStatus.training <;>
        cases ce <;> cases cs <;> cases ts <;> cases ls <;>
          simp [update_job_from_runpod, hst]
  | completed =>
    cases rout with
    | none => simp [update_job_from_runpod]
    | some o =>
      cases hk : o.model_s3_key with
      | none => simp [update_job_from_runpod, hk]
      | some k =>
        by_cases hke : k.isEmpty <;> simp [update_job_from_runpod, hk, hke]
  | failed => simp [update_job_from_runpod]
  | timedOut => simp [update_job_from_runpod]
  | cancelled => simp [update_job_from_runpod]

/-- Helper: the reconcile pass leaves every job without a remote handle
untouched, so such a job keeps a null handle and never gains TRAINING or
COMPLETED status. -/
theorem reconcilePass_no_handle (rem : String → RunPodJobResult)
    (now jid : Nat) :
    ∀ (fid : Nat) (l : List TTSTrainingJob),
      (∀ j ∈ l, j.id = jid → j.runpod_job_id = none ∧
        j.status ≠ JobStatus.training ∧ j.status ≠ JobStatus.completed) →
      ∀ j2 ∈ (reconcilePass rem now fid l).1, j2.id = jid →
        j2.runpod_job_id = none ∧ j2.status ≠ JobStatus.training ∧
          j2.status ≠ JobStatus.completed := by
  intro fid l
  induction l generalizing fid with
  | nil =>
    intro _ j2 hj2
    simp [reconcilePass] at hj2
  | cons x xs ih =>
    intro h j2 hj2 hid
    have hx := h x (List.mem_cons_self x xs)
    have hxs : ∀ j ∈ xs, j.id = jid → j.runpod_job_id = none ∧
        j.status ≠ JobStatus.training ∧ j.status ≠ JobStatus.completed :=
      fun j hj => h j (List.mem_cons_of_mem x hj)
    rw [reconcilePass] at hj2
    cases hrp : x.runpod_job_id with
    | none =>
      rw [hrp] at hj2
      dsimp only at hj2
      rcases List.mem_cons.mp hj2 with rfl | hmem
      · exact hx hid
      · exact ih fid hxs j2 hmem hid
    | some hdl =>
      rw [hrp] at hj2
      dsimp only at hj2
      by_cases hact : isActiveStatus x = true
      · rw [if_pos hact] at hj2
        dsimp only at hj2
        rcases List.mem_cons.mp hj2 with rfl | hmem
        · exfalso
          have hidx : x.id = jid := by
            rw [← (update_preserves_id_handle now fid x (rem hdl)).1]
            exact hid
          have hnone := (hx hidx).1
          rw [hrp] at hnone
          exact Option.noConfusion hnone
        · exact ih (fid + 1) hxs j2 hmem hid
      · rw [if_neg hact] at hj2
        dsimp only at hj2
        rcases List.mem_cons.mp hj2 with rfl | hmem
        · exact hx hid
        · exact ih fid hxs j2 hmem hid

/-- Helper: the renumbering pass changes only `queue_position`, preserving
handles and statuses. -/
theorem renumber_no_handle (jid : Nat) :
    ∀ (k : Nat) (l : List TTSTrainingJob),
      (∀ j ∈ l, j.id = jid → j.runpod_job_id = none ∧
        j.status ≠ JobStatus.training ∧ j.status ≠ JobStatus.completed) →
      ∀ j2 ∈ renumberQueued k l, j2.id = jid →
        j2.runpod_job_id = none ∧ j2.status ≠ JobStatus.training ∧
          j2.status ≠ JobStatus.completed := by
  intro k l
  induction l generalizing k with
  | nil =>
    intro _ j2 hj2
    simp [renumberQueued] at hj2
  | cons x xs ih =>
    intro h j2 hj2 hid
    have hx := h x (List.mem_cons_self x xs)
    have hxs : ∀ j ∈ xs, j.id = jid → j.runpod_job_id = none ∧
        j.status ≠ JobStatus.training ∧ j.status ≠ JobStatus.completed :=
      fun j hj => h j (List.mem_cons_of_mem x hj)
    rw [renumberQueued] at hj2
    by_cases hq : x.status = JobStatus.queued
    · rw [if_pos hq] at hj2
      rcases List.mem_cons.mp hj2 with rfl | hmem
      · have hidx : x.id = jid := hid
        exact hx hidx
      · exact ih (k + 1) hxs j2 hmem hid
    · rw [if_neg hq] at hj2
      rcases List.mem_cons.mp hj2 with rfl | hmem
      · exact hx hid
      · exact ih k hxs j2 hmem hid

/-- Helper: one poll tick preserves the no-handle, not-TRAINING,
not-COMPLETED property of a job. -/
theorem poll_no_handle (rem : String → RunPodJobResult) (now fid : Nat)
    (s : Store) (jid : Nat)
    (h : ∀ j ∈ s.jobs, j.id = jid → j.runpod_job_id = none ∧
      j.status ≠ JobStatus.training ∧ j.status ≠ JobStatus.completed) :
    ∀ j2 ∈ (poll_active_jobs rem now fid s).jobs, j2.id = jid →
      j2.runpod_job_id = none ∧ j2.status ≠ JobStatus.training ∧
        j2.status ≠ JobStatus.completed := by
  intro j2 hj2 hid
  have hpass := reconcilePass_no_handle rem now jid fid s.jobs h
  exact renumber_no_handle jid 1 _ hpass j2 hj2 hid

/-- C4: a job whose `runpod_job_id` is null (for example after a failed
submission) is filtered out of every reconcile pass, so no sequence of
poll-loop ticks can ever bring it to TRAINING or COMPLETED. -/
theorem no_handle_never_trains (s : Store) (ticks : List TickEnv) (jid : Nat)
    (h : ∀ j ∈ s.jobs, j.id = jid → j.runpod_job_id = none ∧
      j.status ≠ JobStatus.training ∧ j.status ≠ JobStatus.completed) :
    (pollTicks ticks s).jobs.filter
      (fun j => j.id = jid &&
        (j.status = JobStatus.training || j.status = JobStatus.completed))
      = [] := by
  have main : ∀ j ∈ (pollTicks ticks s).jobs, j.id = jid →
      j.runpod_job_id = none ∧ j.status ≠ JobStatus.training ∧
        j.status ≠ JobStatus.completed := by
    induction ticks generalizing s with
    | nil => simpa [pollTicks] using h
    | cons t ts ih =>
      have hstep := poll_no_handle t.rem t.now t.fid s jid h
      have := ih (poll_active_jobs t.rem t.now t.fid s) hstep
      simpa [pollTicks, List.foldl_cons] using this
  rw [List.filter_eq_nil_iff]
  intro a ha
  by_cases haid : a.id = jid
  · obtain ⟨_, h1, h2⟩ := main a ha haid
    simp [haid, h1, h2]
  · simp [haid]

/-- C4 witness: the handle-less QUEUED job of `storeC4` is still neither
TRAINING nor COMPLETED after a tick whose remote reports IN_PROGRESS. -/
theorem no_handle_never_trains_witness :
    (pollTicks [tickW] storeC4).jobs.filter
      (fun j => j.id = 1 &&
        (j.status = JobStatus.training || j.status = JobStatus.completed))
      = [] :=
  no_handle_never_trains storeC4 [tickW] 1 (by decide)
